import Mathlib

/-!
Shallow embedding of the core RAG pipeline of the idle-universe repository:
the LCEL question-answering chain (`src/qa_chain/lcel_chain.py`), the LLM
backends (`src/llm/zhipu_llm.py`, `src/llm/openai_llm.py`) and the database
manager (`src/database/create_db.py`), together with theorems settling the
frozen claims about them.

External effects (the FAISS retriever, the remote LLM calls, the filesystem)
are modelled as explicit parameters: a function gives the outcome of each
call, and the embedded code is the repository's control flow around those
outcomes, translated statement by statement from the Python source.
-/

namespace IdleUniverse

/-- A langchain document chunk as consumed by `lcel_chain.py`:
its `page_content` and the optional `source` entry of its metadata
(`doc.metadata.get('source', 'Unknown')` reads it with default `"Unknown"`). -/
structure Doc where
  page_content : String
  source : Option String
  deriving Repr, DecidableEq

/-- The dictionary returned by `LCELQaChain.answer`
(`{"answer": ..., "context": ..., "sources": ...}`). -/
structure QueryResult where
  answer : String
  context : String
  sources : List String
  deriving Repr, DecidableEq

/-- Document combination from `_build_chain` / `answer_stream`:
`"\n\n".join(doc.page_content for doc in docs)`. -/
def combine_docs (docs : List Doc) : String :=
  String.intercalate "\n\n" (docs.map (fun d => d.page_content))

/-- Python's `str.strip()`: the string with leading and trailing whitespace
removed, defined charwise over the string's character list. -/
def pyStrip (s : String) : String :=
  String.mk (((s.data.dropWhile Char.isWhitespace).reverse.dropWhile
    Char.isWhitespace).reverse)

namespace LCELQaChain

/-- One pass of the history loop body in `_enhance_question_with_history`
(`history_text += f"第{i}轮对话:\n用户: {user_msg}\n助手: {ai_msg}\n\n"`). -/
def renderTurn (i : Nat) (userMsg aiMsg : String) : String :=
  "第" ++ toString i ++ "轮对话:\n用户: " ++ userMsg ++ "\n助手: " ++ aiMsg ++ "\n\n"

/-- The accumulated `history_text` built by
`for i, (user_msg, ai_msg) in enumerate(chat_history[-3:], 1)`,
starting the numbering at `i`. -/
def historyTextFrom (i : Nat) : List (String × String) → String
  | [] => ""
  | t :: ts => renderTurn i t.1 t.2 ++ historyTextFrom (i + 1) ts

/-- Python's `chat_history[-3:]`: the most recent three turns, or the whole
list when it has fewer than three elements (`Nat` subtraction truncates at 0
exactly as the slice clamps). -/
def lastThree (l : List (String × String)) : List (String × String) :=
  l.drop (l.length - 3)

/-- `LCELQaChain._enhance_question_with_history` from
`src/qa_chain/lcel_chain.py` lines 203-221.  An absent (`None`) history is
modelled as the empty list; `if not chat_history` is true exactly on that
list. -/
def enhance_question_with_history (question : String)
    (chatHistory : List (String × String)) : String :=
  if chatHistory.isEmpty then question
  else
    "基于以下对话历史，请回答当前问题：\n\n" ++
      historyTextFrom 1 (lastThree chatHistory) ++
      "\n当前问题: " ++ question ++
      "\n\n请基于历史对话的上下文，准确回答当前问题。"

/-- One external call made while answering: a retriever call
(`self.retriever.get_relevant_documents(...)` or the retrieval stage of
`self.qa_chain.invoke`) or an answer-generation call (the
`self.qa_prompt | self.llm | StrOutputParser()` stage, resp. the LLM streaming
call in `answer_stream`), each recorded with the query it was given. -/
inductive ChainEvent
  | retrievalCall (query : String)
  | generationCall (query : String)
  deriving Repr, DecidableEq

/-- Outcomes of the chain's external collaborators.  `retrieve q` is what the
FAISS retriever returns for query `q` (modelled as deterministic and total:
the claims at issue concern generation failures, not retrieval failures);
`generate ctx q` is the outcome of the prompt-LLM-parser stage on the
assembled context and question, `Except.error e` meaning the call raised an
exception with message `e`; `streamGenerate ctx q` is the list of fragments
the streaming LLM call yields (any terminal error fragment included, as per
`generate_stream` of the backends). -/
structure Pipeline where
  retrieve : String → List Doc
  generate : String → String → Except String String
  streamGenerate : String → String → List String

/-- `LCELQaChain.answer` (`src/qa_chain/lcel_chain.py` lines 136-169),
paired with the trace of external calls it performs, in order.  The guard is
`if not question or len(question.strip()) == 0`, which holds exactly when the
stripped question is empty.  `self.qa_chain.invoke` runs retrieval (context
assembly) and then generation; on success the code calls the retriever a
second time to collect `sources`; any exception is caught and turned into the
apologetic result with empty context and sources. -/
def answerWithLog (p : Pipeline) (question : String)
    (chatHistory : List (String × String)) : QueryResult × List ChainEvent :=
  if pyStrip question = "" then
    ({ answer := "", context := "", sources := [] }, [])
  else
    let enhanced := enhance_question_with_history question chatHistory
    let ctx := combine_docs (p.retrieve enhanced)
    match p.generate ctx enhanced with
    | Except.error e =>
        ({ answer := "抱歉，处理您的问题时出现了错误: " ++ e,
           context := "", sources := [] },
         [ChainEvent.retrievalCall enhanced, ChainEvent.generationCall enhanced])
    | Except.ok ans =>
        let docs := p.retrieve enhanced
        ({ answer := ans, context := ctx,
           sources := docs.map (fun d => d.source.getD "Unknown") },
         [ChainEvent.retrievalCall enhanced, ChainEvent.generationCall enhanced,
          ChainEvent.retrievalCall enhanced])

/-- The `QueryResult` returned by `LCELQaChain.answer`. -/
def answer (p : Pipeline) (question : String)
    (chatHistory : List (String × String)) : QueryResult :=
  (answerWithLog p question chatHistory).1

/-- `LCELQaChain.answer_stream` (`src/qa_chain/lcel_chain.py` lines 223-255):
the list of fragments the generator yields, paired with the trace of external
calls.  An empty/whitespace question yields a single `""` and returns;
otherwise the retriever is called once, the context assembled, and the LLM
streaming call yields the remaining fragments. -/
def answer_streamWithLog (p : Pipeline) (question : String)
    (chatHistory : List (String × String)) : List String × List ChainEvent :=
  if pyStrip question = "" then
    ([""], [])
  else
    let enhanced := enhance_question_with_history question chatHistory
    let docs := p.retrieve enhanced
    let ctx := combine_docs docs
    (p.streamGenerate ctx enhanced,
     [ChainEvent.retrievalCall enhanced, ChainEvent.generationCall enhanced])

end LCELQaChain

namespace QaChainManager

/-- The cache key built by `QaChainManager.get_chain`
(`key = f"{model_provider}_{model_name}_{embedding_type}"`). -/
def chainKey (modelProvider modelName embeddingType : String) : String :=
  modelProvider ++ "_" ++ modelName ++ "_" ++ embeddingType

/-- Position of one caller inside `get_chain`
(`src/qa_chain/lcel_chain.py` lines 275-290), for a fixed key:
`checking` = about to evaluate `if key not in self.chains`;
`constructing` = observed the key absent, about to run
`self.chains[key] = LCELQaChain(...)`;
`returning` = about to evaluate `return self.chains[key]`;
`finished v` = returned the pipeline instance with identity `v`. -/
inductive Phase
  | checking
  | constructing
  | returning
  | finished (v : Nat)
  deriving Repr, DecidableEq

/-- Shared state of the manager for one key, with two concurrent callers of
`get_chain` for that key.  `cache` is the `self.chains` entry (the identity of
the stored `LCELQaChain` instance, if present); `built` counts completed
`LCELQaChain(...)` constructions and doubles as the next fresh identity. -/
structure ManagerState where
  cache : Option Nat
  built : Nat
  threadA : Phase
  threadB : Phase
  deriving Repr, DecidableEq

/-- One atomic step of a single caller: the membership check, the
construct-and-assign statement, or the final cache read.  There is no lock in
`get_chain`, so steps of the two callers may interleave freely. -/
def stepPhase (cache : Option Nat) (built : Nat) (ph : Phase) :
    Phase × Option Nat × Nat :=
  match ph with
  | Phase.checking =>
      match cache with
      | some _ => (Phase.returning, cache, built)
      | none => (Phase.constructing, cache, built)
  | Phase.constructing => (Phase.returning, some built, built + 1)
  | Phase.returning => (Phase.finished (cache.getD 0), cache, built)
  | Phase.finished v => (Phase.finished v, cache, built)

/-- Step caller A (`true`) or caller B (`false`). -/
def stepThread (s : ManagerState) (a : Bool) : ManagerState :=
  if a then
    let r := stepPhase s.cache s.built s.threadA
    { s with threadA := r.1, cache := r.2.1, built := r.2.2 }
  else
    let r := stepPhase s.cache s.built s.threadB
    { s with threadB := r.1, cache := r.2.1, built := r.2.2 }

/-- Run a schedule: the interleaving order of the two callers' atomic steps. -/
def runSched : List Bool → ManagerState → ManagerState
  | [], s => s
  | a :: rest, s => runSched rest (stepThread s a)

/-- Both callers about to enter `get_chain` for a key with no cached chain. -/
def initState : ManagerState :=
  { cache := none, built := 0, threadA := Phase.checking, threadB := Phase.checking }

end QaChainManager

namespace DatabaseManager

/-- `config.embedding.chunk_size` from `src/utils/config.py`. -/
def configChunkSize : Nat := 500

/-- `config.embedding.chunk_overlap` from `src/utils/config.py`. -/
def configChunkOverlap : Nat := 150

/-- `config.database.vector_db_path` from `src/utils/config.py`. -/
def vector_db_path : String := "vector_db/faiss"

/-- The FAISS path used by `create_vector_db` and `load_vector_db`:
`self.config.vector_db_path.replace("chroma", "faiss")`. -/
def faissPath : String := vector_db_path.replace "chroma" "faiss"

/-- Python's `x or default` applied to an optional integer parameter, as in
`chunk_size = chunk_size or config.embedding.chunk_size`: both `None` and `0`
fall back to the default. -/
def pyOrDefault (x : Option Nat) (dflt : Nat) : Nat :=
  match x with
  | none => dflt
  | some n => if n = 0 then dflt else n

/-- `DatabaseManager.split_documents` (`src/database/create_db.py` lines
116-130).  The repository function itself performs no parameter validation;
the only check is in the constructor of langchain's
`RecursiveCharacterTextSplitter` (inherited from `TextSplitter.__init__` in
the langchain library, outside this repository), which raises `ValueError`
exactly when `chunk_overlap > chunk_size`.  The actual recursive splitting is
abstracted as the parameter `split` (chunk size, chunk overlap, documents). -/
def split_documents (split : Nat → Nat → List Doc → List Doc)
    (chunkSize chunkOverlap : Option Nat) (documents : List Doc) :
    Except String (List Doc) :=
  let cs := pyOrDefault chunkSize configChunkSize
  let co := pyOrDefault chunkOverlap configChunkOverlap
  if co > cs then
    Except.error "Got a larger chunk overlap than chunk size, should be smaller."
  else
    Except.ok (split cs co documents)

/-- External collaborators of `create_vector_db`: the documents
`self.load_documents()` would return, and the
`FAISS.from_documents(...)` + `save_local(...)` call, which either raises or
yields a vector store (identified by a `Nat` handle). -/
structure BuildEnv where
  loadDocuments : List Doc
  fromDocuments : List Doc → Except String Nat

/-- `DatabaseManager.create_vector_db` (`src/database/create_db.py` lines
132-169).  Result `Except.error e` means the call raised an exception `e`;
`Except.ok none` means it returned Python `None`; `Except.ok (some v)` means
it returned the vector store `v`.  An unknown embedding type raises
`ValueError` (uncaught — no `try` surrounds it); empty documents log a
warning and return `None`; a `FAISS.from_documents` failure is caught and
re-raised as the generic message. -/
def create_vector_db (env : BuildEnv) (split : Nat → Nat → List Doc → List Doc)
    (embeddingType : String) (documents : Option (List Doc)) :
    Except String (Option Nat) :=
  if embeddingType = "openai" ∨ embeddingType = "m3e" then
    let docs := documents.getD env.loadDocuments
    if docs.isEmpty then Except.ok none
    else
      match split_documents split none none docs with
      | Except.error e => Except.error e
      | Except.ok splitDocs =>
          match env.fromDocuments splitDocs with
          | Except.error _ => Except.error "无法创建向量数据库，请检查环境配置"
          | Except.ok v => Except.ok (some v)
  else
    Except.error ("不支持的向量化类型: " ++ embeddingType)

/-- External collaborators of `load_vector_db`: the
`os.path.exists` check and the `FAISS.load_local` call, which either raises
(corrupt/incompatible index) or yields a vector store handle. -/
structure LoadEnv where
  pathExists : String → Bool
  loadLocal : String → Except String Nat

/-- `DatabaseManager.load_vector_db` (`src/database/create_db.py` lines
171-198).  The whole body sits in one `try`: an unknown embedding type raises
`ValueError` inside it and is caught; an absent path logs a warning and
returns `None`; a raising `FAISS.load_local` is caught and returns `None`.
Every failure path therefore produces the same value, Python `None`. -/
def load_vector_db (env : LoadEnv) (embeddingType : String) : Option Nat :=
  if embeddingType = "openai" ∨ embeddingType = "m3e" then
    if env.pathExists faissPath then
      match env.loadLocal faissPath with
      | Except.ok v => some v
      | Except.error _ => none
    else none
  else none

end DatabaseManager

/-- Concatenation of a list of text fragments, in order. -/
def concatAll : List String → String
  | [] => ""
  | s :: rest => s ++ concatAll rest

namespace ZhipuLLM

/-- Outcome of one non-streaming backend call
(`self.client.chat.completions.create(...)` in `ZhipuLLM.generate`):
`failure e` = the call raised an exception `e`; `success choices` = it
returned a response whose choices carry the given `message.content` values
(`none` = a Python `None` content). -/
inductive ApiOutcome
  | failure (e : String)
  | success (choices : List (Option String))
  deriving Repr, DecidableEq

/-- Outcome of one streaming backend call in `ZhipuLLM.generate_stream`:
the chunks the iterator produced before completing, each as the list of its
choices' `delta.content` values, and — when the call raised at creation or
mid-iteration — the exception message, raised after those chunks. -/
structure StreamOutcome where
  chunks : List (List (Option String))
  raised : Option String
  deriving Repr, DecidableEq

/-- `ZhipuLLM.generate` (`src/llm/zhipu_llm.py` lines 36-62): on an
exception, log and return `None`; on a response with no choices, log and
return `None`; otherwise return `response.choices[0].message.content`
(itself possibly `None`). -/
def generate (o : ApiOutcome) : Option String :=
  match o with
  | ApiOutcome.failure _ => none
  | ApiOutcome.success choices =>
      match choices with
      | [] => none
      | c :: _ => c

/-- The fragment, if any, that the loop body of `ZhipuLLM.generate_stream`
yields for one chunk: skipped when `chunk.choices` is empty, when the first
choice's `delta.content` is `None`, and when it is the empty string (the
`if content:` truthiness test). -/
def chunkFragment (choices : List (Option String)) : Option String :=
  match choices with
  | [] => none
  | c :: _ =>
      match c with
      | none => none
      | some s => if s = "" then none else some s

/-- The text a chunk contributes to the backend's full message:
its first choice's `delta.content`, reading both an absent choice and a
`None` content as the empty contribution. -/
def chunkText (choices : List (Option String)) : String :=
  match choices with
  | [] => ""
  | c :: _ => c.getD ""

/-- `ZhipuLLM.generate_stream` (`src/llm/zhipu_llm.py` lines 64-89): the
fragments the generator yields.  The whole body sits in one `try`, so an
exception raised after some chunks were already yielded is caught and the
generator yields one final `"错误: ..."` fragment, then terminates. -/
def generate_stream (o : StreamOutcome) : List String :=
  o.chunks.filterMap chunkFragment ++
    (match o.raised with
     | some e => ["错误: " ++ e]
     | none => [])

end ZhipuLLM

namespace OpenAILLM

/-- Outcome of one non-streaming backend call
(`openai.ChatCompletion.create(...)` in `OpenAILLM.generate`), as for the
Zhipu backend. -/
inductive ApiOutcome
  | failure (e : String)
  | success (choices : List (Option String))
  deriving Repr, DecidableEq

/-- Outcome of one streaming backend call in `OpenAILLM.generate_stream`,
as for the Zhipu backend. -/
structure StreamOutcome where
  chunks : List (List (Option String))
  raised : Option String
  deriving Repr, DecidableEq

/-- `OpenAILLM.generate` (`src/llm/openai_llm.py` lines 33-59): same control
flow as the Zhipu variant. -/
def generate (o : ApiOutcome) : Option String :=
  match o with
  | ApiOutcome.failure _ => none
  | ApiOutcome.success choices =>
      match choices with
      | [] => none
      | c :: _ => c

/-- The fragment, if any, that the loop body of `OpenAILLM.generate_stream`
yields for one chunk. -/
def chunkFragment (choices : List (Option String)) : Option String :=
  match choices with
  | [] => none
  | c :: _ =>
      match c with
      | none => none
      | some s => if s = "" then none else some s

/-- The text a chunk contributes to the backend's full message. -/
def chunkText (choices : List (Option String)) : String :=
  match choices with
  | [] => ""
  | c :: _ => c.getD ""

/-- `OpenAILLM.generate_stream` (`src/llm/openai_llm.py` lines 61-86): the
fragments the generator yields; an exception is caught and turns into one
final `"错误: ..."` fragment. -/
def generate_stream (o : StreamOutcome) : List String :=
  o.chunks.filterMap chunkFragment ++
    (match o.raised with
     | some e => ["错误: " ++ e]
     | none => [])

end OpenAILLM

/-! Concrete collaborator instances used to evaluate the embedded code on
explicit inputs. -/

/-- A pipeline whose retriever finds one chunk and whose generation stage
raises. -/
def cexPipeline : LCELQaChain.Pipeline :=
  { retrieve := fun _ =>
      [{ page_content := "(G)I-DLE debuted in 2018 with Latata.", source := some "wiki.md" }]
    generate := fun _ _ => Except.error "boom"
    streamGenerate := fun _ _ => [] }

/-- A pipeline with an empty corpus and a trivial generator. -/
def witnessPipeline : LCELQaChain.Pipeline :=
  { retrieve := fun _ => []
    generate := fun _ _ => Except.ok ""
    streamGenerate := fun _ _ => [] }

/-- A load environment in which the index path does not exist. -/
def envAbsent : DatabaseManager.LoadEnv :=
  { pathExists := fun _ => false
    loadLocal := fun _ => Except.error "unused" }

/-- A load environment in which the path exists but deserialization raises
(stored embedding dimensionality disagrees with the active provider). -/
def envCorrupt : DatabaseManager.LoadEnv :=
  { pathExists := fun _ => true
    loadLocal := fun _ => Except.error "dimension mismatch" }

/-- A build environment with no documents on disk and a vector-store builder
that succeeds. -/
def sampleBuildEnv : DatabaseManager.BuildEnv :=
  { loadDocuments := []
    fromDocuments := fun _ => Except.ok 0 }

/-- A degenerate splitter that keeps every document whole. -/
def idSplit : Nat → Nat → List Doc → List Doc := fun _ _ docs => docs

/-- A sample document chunk. -/
def sampleDoc : Doc :=
  { page_content := "(G)I-DLE debuted in 2018 with Latata.", source := some "wiki.md" }

/-- Sample streamed chunks whose delta contents concatenate to `"ab"`:
they include an empty chunk, a `None` content and an empty-string content,
all of which the streaming loop skips. -/
def witnessChunks : List (List (Option String)) :=
  [[some "a"], [], [none], [some ""], [some "b", some "zzz"]]

/-! Theorems settling the claims. -/

/-- C9: for every question, if the conversation history is empty the enhance
operation returns the question unchanged. -/
theorem enhance_empty_history_identity (q : String) :
    LCELQaChain.enhance_question_with_history q [] = q := rfl

/-- C8: for every non-empty history the enhance operation folds exactly the
most recent 3 conversation turns into the enhanced text — older turns are
dropped — rendered in order with explicit turn numbering and followed by the
new question (first conjunct: histories of three or more turns, with an
arbitrary dropped prefix `pre`; second conjunct: the two-turn scenario).
Determinism — calling twice with the same inputs yields textually identical
output — is immediate because `enhance_question_with_history` is a pure
function of its arguments. -/
theorem enhance_folds_most_recent_three_turns :
    (∀ (q : String) (pre : List (String × String)) (t1 t2 t3 : String × String),
      LCELQaChain.enhance_question_with_history q (pre ++ [t1, t2, t3]) =
        "基于以下对话历史，请回答当前问题：\n\n" ++
          (LCELQaChain.renderTurn 1 t1.1 t1.2 ++ LCELQaChain.renderTurn 2 t2.1 t2.2 ++
            LCELQaChain.renderTurn 3 t3.1 t3.2) ++
          "\n当前问题: " ++ q ++ "\n\n请基于历史对话的上下文，准确回答当前问题。") ∧
    (∀ (q : String) (t1 t2 : String × String),
      LCELQaChain.enhance_question_with_history q [t1, t2] =
        "基于以下对话历史，请回答当前问题：\n\n" ++
          (LCELQaChain.renderTurn 1 t1.1 t1.2 ++ LCELQaChain.renderTurn 2 t2.1 t2.2) ++
          "\n当前问题: " ++ q ++ "\n\n请基于历史对话的上下文，准确回答当前问题。") := by
  constructor
  · intro q pre t1 t2 t3
    have hlast : LCELQaChain.lastThree (pre ++ [t1, t2, t3]) = [t1, t2, t3] := by
      unfold LCELQaChain.lastThree
      have hlen : (pre ++ [t1, t2, t3]).length - 3 = pre.length := by
        simp [List.length_append]
      rw [hlen, List.drop_left]
    have hne : (pre ++ [t1, t2, t3]).isEmpty = false := by
      cases pre <;> simp [List.isEmpty]
    simp [LCELQaChain.enhance_question_with_history, hne, hlast,
      LCELQaChain.historyTextFrom, String.append_assoc, String.append_empty]
  · intro q t1 t2
    simp [LCELQaChain.enhance_question_with_history, LCELQaChain.lastThree,
      LCELQaChain.historyTextFrom, List.isEmpty, String.append_assoc,
      String.append_empty]

/-- C10: for every pipeline, every question that strips to the empty string
and every history, `answer` returns the empty result with no sources and
`answer_stream` yields exactly one empty fragment — and in both cases the
trace of external calls is empty (no retrieval, no generation). -/
theorem answer_blank_question_empty_result_no_calls
    (p : LCELQaChain.Pipeline) (q : String) (h : List (String × String))
    (hq : pyStrip q = "") :
    LCELQaChain.answerWithLog p q h =
      ({ answer := "", context := "", sources := [] }, []) ∧
    LCELQaChain.answer_streamWithLog p q h = ([""], []) := by
  constructor <;>
    simp [LCELQaChain.answerWithLog, LCELQaChain.answer_streamWithLog, hq]

/-- Witness for C10 at a concrete whitespace-only question. -/
theorem answer_blank_question_empty_result_no_calls_witness :
    LCELQaChain.answerWithLog witnessPipeline "   " [("u", "a")] =
      ({ answer := "", context := "", sources := [] }, []) ∧
    LCELQaChain.answer_streamWithLog witnessPipeline "   " [("u", "a")] =
      ([""], []) :=
  answer_blank_question_empty_result_no_calls witnessPipeline "   " [("u", "a")]
    (by decide)

/-- C1 counterexample: a pipeline whose retriever returns a chunk (with
source `"wiki.md"`) but whose generation stage fails.  `answer` returns the
apologetic error result whose `sources` is empty — the retrieved chunk's
source identifier is not preserved, contrary to the claim. -/
theorem answer_generation_failure_empty_sources_cex :
    cexPipeline.retrieve "When did the group debut?" ≠ [] ∧
    (LCELQaChain.answer cexPipeline "When did the group debut?" []).sources = [] := by
  constructor
  · decide
  · decide

/-- C1 amended: for every pipeline, non-blank question and history, if the
generation stage fails with message `e`, `answer` returns the apologetic
error result whose `context` and `sources` are empty — sources are computed
only after successful generation, so a generation failure loses them. -/
theorem answer_generation_failure_returns_error_result
    (p : LCELQaChain.Pipeline) (q : String) (h : List (String × String))
    (e : String) (hq : ¬ pyStrip q = "")
    (hg : p.generate
        (combine_docs (p.retrieve (LCELQaChain.enhance_question_with_history q h)))
        (LCELQaChain.enhance_question_with_history q h) = Except.error e) :
    LCELQaChain.answer p q h =
      { answer := "抱歉，处理您的问题时出现了错误: " ++ e,
        context := "", sources := [] } := by
  simp [LCELQaChain.answer, LCELQaChain.answerWithLog, hq, hg]

/-- Witness for the amended C1 at the concrete failing pipeline. -/
theorem answer_generation_failure_returns_error_result_witness :
    LCELQaChain.answer cexPipeline "When did the group debut?" [] =
      { answer := "抱歉，处理您的问题时出现了错误: " ++ "boom",
        context := "", sources := [] } :=
  answer_generation_failure_returns_error_result cexPipeline
    "When did the group debut?" [] "boom" (by decide) rfl

/-- C2 counterexample: with no lock around the check-then-construct sequence
in `get_chain`, the interleaving in which both callers pass the membership
check before either constructs leads to two `LCELQaChain` constructions for
the same key, and the two callers receive different instances (identities 0
and 1). -/
theorem get_chain_concurrent_double_construction :
    (QaChainManager.runSched [true, false, true, true, false, false]
        QaChainManager.initState).built = 2 ∧
    (QaChainManager.runSched [true, false, true, true, false, false]
        QaChainManager.initState).threadA = QaChainManager.Phase.finished 0 ∧
    (QaChainManager.runSched [true, false, true, true, false, false]
        QaChainManager.initState).threadB = QaChainManager.Phase.finished 1 := by
  decide

/-- C2 amended: `get_chain` memoizes per key under sequential access — when
either caller runs to completion before the other starts, exactly one
pipeline is constructed and both callers receive that same instance.  The
cache is unsynchronized, so this guarantee does not extend to concurrent
first access. -/
theorem get_chain_sequential_single_construction :
    ((QaChainManager.runSched [true, true, true, false, false, false]
        QaChainManager.initState).built = 1 ∧
      (QaChainManager.runSched [true, true, true, false, false, false]
        QaChainManager.initState).threadA = QaChainManager.Phase.finished 0 ∧
      (QaChainManager.runSched [true, true, true, false, false, false]
        QaChainManager.initState).threadB = QaChainManager.Phase.finished 0) ∧
    ((QaChainManager.runSched [false, false, false, true, true, true]
        QaChainManager.initState).built = 1 ∧
      (QaChainManager.runSched [false, false, false, true, true, true]
        QaChainManager.initState).threadA = QaChainManager.Phase.finished 0 ∧
      (QaChainManager.runSched [false, false, false, true, true, true]
        QaChainManager.initState).threadB = QaChainManager.Phase.finished 0) := by
  decide

/-- C3 counterexample: an absent index path and a corrupt (raising) index
load produce the same return value, Python `None` — the two index-lifecycle
failures are not reported distinctly, and neither carries an `IndexNotFound`
or `CorruptIndex` error. -/
theorem load_vector_db_failure_modes_indistinct_cex :
    DatabaseManager.load_vector_db envAbsent "m3e" = none ∧
    DatabaseManager.load_vector_db envCorrupt "m3e" = none ∧
    DatabaseManager.load_vector_db envAbsent "m3e" =
      DatabaseManager.load_vector_db envCorrupt "m3e" := by
  refine ⟨by decide, by decide, by decide⟩

/-- C3 amended: `load_vector_db` swallows every failure into the generic
value `None`: it returns `None` when the path is absent and `None` when
deserialization raises (e.g. on a dimensionality mismatch); only a successful
load returns the store. -/
theorem load_vector_db_failures_swallowed_to_none
    (env : DatabaseManager.LoadEnv) (et : String) :
    (env.pathExists DatabaseManager.faissPath = false →
      DatabaseManager.load_vector_db env et = none) ∧
    (∀ e, env.loadLocal DatabaseManager.faissPath = Except.error e →
      DatabaseManager.load_vector_db env et = none) ∧
    (∀ v, (et = "openai" ∨ et = "m3e") →
      env.pathExists DatabaseManager.faissPath = true →
      env.loadLocal DatabaseManager.faissPath = Except.ok v →
      DatabaseManager.load_vector_db env et = some v) := by
  refine ⟨?_, ?_, ?_⟩
  · intro hpe
    by_cases het : et = "openai" ∨ et = "m3e" <;>
      simp [DatabaseManager.load_vector_db, het, hpe]
  · intro e he
    by_cases het : et = "openai" ∨ et = "m3e"
    · by_cases hpe : env.pathExists DatabaseManager.faissPath <;>
        simp [DatabaseManager.load_vector_db, het, hpe, he]
    · simp [DatabaseManager.load_vector_db, het]
  · intro v het hpe hv
    simp [DatabaseManager.load_vector_db, het, hpe, hv]

/-- Witness for the amended C3 at the corrupt-load environment. -/
theorem load_vector_db_failures_swallowed_to_none_witness :
    DatabaseManager.load_vector_db envCorrupt "m3e" = none :=
  (load_vector_db_failures_swallowed_to_none envCorrupt "m3e").2.1
    "dimension mismatch" rfl

/-- C4 counterexample: building from an explicitly empty document list does
not raise an `EmptyCorpus` error — `create_vector_db` returns Python `None`
(`Except.ok none`, a non-raising outcome). -/
theorem create_vector_db_empty_documents_cex :
    DatabaseManager.create_vector_db sampleBuildEnv idSplit "m3e" (some []) =
      Except.ok none := rfl

/-- C4 amended: for a supported embedding type, when the effective document
list is empty `create_vector_db` logs a warning and returns `None` — no
error is raised, and no vector store is built (the result does not depend on
the `fromDocuments` builder, which is universally quantified here). -/
theorem create_vector_db_empty_corpus_returns_none
    (env : DatabaseManager.BuildEnv) (split : Nat → Nat → List Doc → List Doc)
    (et : String) (documents : Option (List Doc))
    (het : et = "openai" ∨ et = "m3e")
    (hd : (documents.getD env.loadDocuments).isEmpty = true) :
    DatabaseManager.create_vector_db env split et documents = Except.ok none := by
  simp [DatabaseManager.create_vector_db, het, hd]

/-- Witness for the amended C4 at concrete inputs. -/
theorem create_vector_db_empty_corpus_returns_none_witness :
    DatabaseManager.create_vector_db sampleBuildEnv idSplit "m3e" (some []) =
      Except.ok none :=
  create_vector_db_empty_corpus_returns_none sampleBuildEnv idSplit "m3e"
    (some []) (by decide) (by decide)

/-- C5 counterexample: at `chunk_overlap = chunk_size = 500` — a pair with
`chunk_overlap >= chunk_size` — `split_documents` does not fail: the
splitter's constructor only rejects strictly larger overlaps, so splitting
proceeds and chunks are produced. -/
theorem split_documents_equal_overlap_accepted_cex :
    (500 : Nat) ≥ 500 ∧
    DatabaseManager.split_documents idSplit (some 500) (some 500) [sampleDoc] =
      Except.ok [sampleDoc] := by
  refine ⟨le_refl 500, rfl⟩

/-- C5 amended: `split_documents` fails with the splitter constructor's
`ValueError` — before any split is attempted, producing no chunks — exactly
when the effective `chunk_overlap` is strictly greater than the effective
`chunk_size`; equal values are accepted. -/
theorem split_documents_rejects_only_larger_overlap
    (split : Nat → Nat → List Doc → List Doc) (cs co : Option Nat)
    (docs : List Doc)
    (h : DatabaseManager.pyOrDefault co DatabaseManager.configChunkOverlap >
      DatabaseManager.pyOrDefault cs DatabaseManager.configChunkSize) :
    DatabaseManager.split_documents split cs co docs =
      Except.error "Got a larger chunk overlap than chunk size, should be smaller." := by
  simp [DatabaseManager.split_documents, h]

/-- Witness for the amended C5 at overlap 501 against size 500. -/
theorem split_documents_rejects_only_larger_overlap_witness :
    DatabaseManager.split_documents idSplit (some 500) (some 501) [sampleDoc] =
      Except.error "Got a larger chunk overlap than chunk size, should be smaller." :=
  split_documents_rejects_only_larger_overlap idSplit (some 500) (some 501)
    [sampleDoc] (by decide)

/-- Concatenating the fragments actually yielded by the Zhipu streaming loop
(which skips empty chunks, `None` contents and empty-string contents) equals
concatenating every chunk's delta text. -/
theorem zhipu_fragment_concat (l : List (List (Option String))) :
    concatAll (l.filterMap ZhipuLLM.chunkFragment) =
      concatAll (l.map ZhipuLLM.chunkText) := by
  induction l with
  | nil => rfl
  | cons c rest ih =>
    match c with
    | [] =>
        simpa [ZhipuLLM.chunkFragment, ZhipuLLM.chunkText, concatAll,
          String.empty_append] using ih
    | none :: cs =>
        simpa [ZhipuLLM.chunkFragment, ZhipuLLM.chunkText, concatAll,
          String.empty_append] using ih
    | some s :: cs =>
        by_cases hs : s = "" <;>
          simp [ZhipuLLM.chunkFragment, ZhipuLLM.chunkText, concatAll, hs,
            String.empty_append, ih]

/-- The same fragment-concatenation identity for the OpenAI streaming loop. -/
theorem openai_fragment_concat (l : List (List (Option String))) :
    concatAll (l.filterMap OpenAILLM.chunkFragment) =
      concatAll (l.map OpenAILLM.chunkText) := by
  induction l with
  | nil => rfl
  | cons c rest ih =>
    match c with
    | [] =>
        simpa [OpenAILLM.chunkFragment, OpenAILLM.chunkText, concatAll,
          String.empty_append] using ih
    | none :: cs =>
        simpa [OpenAILLM.chunkFragment, OpenAILLM.chunkText, concatAll,
          String.empty_append] using ih
    | some s :: cs =>
        by_cases hs : s = "" <;>
          simp [OpenAILLM.chunkFragment, OpenAILLM.chunkText, concatAll, hs,
            String.empty_append, ih]

/-- C6: for both backends, when the non-streaming call returns the full text
`full` (as `choices[0].message.content`) and the streaming call's chunk
delta texts concatenate to that same `full` (the provider's consistency
contract between its two modes), `generate` returns `full` and the
concatenation of all fragments yielded by `generate_stream` equals `full` —
the code's skipping of empty and `None` deltas does not break the law. -/
theorem stream_concat_equals_generate
    (full : String) (rest : List (Option String))
    (zc oc : List (List (Option String)))
    (hz : concatAll (zc.map ZhipuLLM.chunkText) = full)
    (ho : concatAll (oc.map OpenAILLM.chunkText) = full) :
    (ZhipuLLM.generate (ZhipuLLM.ApiOutcome.success (some full :: rest)) =
        some full ∧
      concatAll (ZhipuLLM.generate_stream { chunks := zc, raised := none }) =
        full) ∧
    (OpenAILLM.generate (OpenAILLM.ApiOutcome.success (some full :: rest)) =
        some full ∧
      concatAll (OpenAILLM.generate_stream { chunks := oc, raised := none }) =
        full) := by
  refine ⟨⟨rfl, ?_⟩, ⟨rfl, ?_⟩⟩
  · rw [show ZhipuLLM.generate_stream { chunks := zc, raised := none } =
      zc.filterMap ZhipuLLM.chunkFragment from by
        simp [ZhipuLLM.generate_stream]]
    rw [zhipu_fragment_concat, hz]
  · rw [show OpenAILLM.generate_stream { chunks := oc, raised := none } =
      oc.filterMap OpenAILLM.chunkFragment from by
        simp [OpenAILLM.generate_stream]]
    rw [openai_fragment_concat, ho]

/-- Witness for C6 at a concrete stream containing skipped chunks. -/
theorem stream_concat_equals_generate_witness :
    (ZhipuLLM.generate (ZhipuLLM.ApiOutcome.success (some "ab" :: [])) =
        some "ab" ∧
      concatAll (ZhipuLLM.generate_stream
        { chunks := witnessChunks, raised := none }) = "ab") ∧
    (OpenAILLM.generate (OpenAILLM.ApiOutcome.success (some "ab" :: [])) =
        some "ab" ∧
      concatAll (OpenAILLM.generate_stream
        { chunks := witnessChunks, raised := none }) = "ab") :=
  stream_concat_equals_generate "ab" [] witnessChunks witnessChunks
    (by decide) (by decide)

/-- C7: for both backends, a raising backend call is contained: `generate`
returns `None` rather than propagating the exception, and `generate_stream`
yields exactly the fragments it had already produced followed by a single
terminal `"错误: ..."` fragment, then terminates. -/
theorem backend_error_contained :
    (∀ e, ZhipuLLM.generate (ZhipuLLM.ApiOutcome.failure e) = none) ∧
    (∀ chunks e, ZhipuLLM.generate_stream { chunks := chunks, raised := some e } =
      ZhipuLLM.generate_stream { chunks := chunks, raised := none } ++
        ["错误: " ++ e]) ∧
    (∀ e, OpenAILLM.generate (OpenAILLM.ApiOutcome.failure e) = none) ∧
    (∀ chunks e, OpenAILLM.generate_stream { chunks := chunks, raised := some e } =
      OpenAILLM.generate_stream { chunks := chunks, raised := none } ++
        ["错误: " ++ e]) := by
  refine ⟨fun e => rfl, fun chunks e => ?_, fun e => rfl, fun chunks e => ?_⟩ <;>
    simp [ZhipuLLM.generate_stream, OpenAILLM.generate_stream]

end IdleUniverse
